import Mathlib

/-!
Verification of the lead-generation / cold-outreach pipeline.

Shallow embedding of the Python sources under `outbound/`:
strings are modelled as `List Char`, Python string methods as explicit
functions on `List Char`, database tables as Lean lists threaded through
the functions that mutate them, and external effects (LLM responses,
SMTP transport outcomes) as explicit parameters or oracles.
-/

/-- Strings as lists of characters (the model of Python `str`). -/
abbrev Str := List Char

namespace Py

/-- Characters removed by Python `str.strip()` with no arguments
(ASCII whitespace: space, tab, newline, carriage return, vertical tab,
form feed). -/
def isSpaceChar (c : Char) : Bool :=
  c == ' ' || c == '\t' || c == '\n' || c == '\r' || c.toNat == 11 || c.toNat == 12

/-- Python `str.strip()`: drop whitespace from both ends. -/
def strip (s : Str) : Str :=
  ((s.dropWhile isSpaceChar).reverse.dropWhile isSpaceChar).reverse

/-- Python `str.lower()` (ASCII model, matching `Char.toLower`). -/
def lower (s : Str) : Str :=
  s.map Char.toLower

/-- Python `str.rstrip('/')`: drop every trailing slash. -/
def rstripSlash (s : Str) : Str :=
  (s.reverse.dropWhile (fun c => c == '/')).reverse

/-- Does `s` start with the pattern `p`? (model of Python `str.startswith`). -/
def startsWith (p s : Str) : Bool :=
  match p, s with
  | [], _ => true
  | _ :: _, [] => false
  | a :: ps, b :: cs => a == b && startsWith ps cs

/-- Python substring test `sub in s` (contiguous occurrence). -/
def containsSub (s sub : Str) : Bool :=
  match s with
  | [] => sub.isEmpty
  | _ :: rest => startsWith sub s || containsSub rest sub

/-- Worker for `replace`, structurally recursive on a fuel argument so
that it evaluates by kernel reduction.  As long as `fuel ≥ s.length`
the fuel is never exhausted, because each step consumes at least one
character of `s`. -/
def replaceAux : Nat → Str → Str → Str → Str
  | 0, s, _, _ => s
  | _ + 1, [], _, _ => []
  | fuel + 1, c :: rest, pat, rep =>
    if pat ≠ [] ∧ startsWith pat (c :: rest) = true then
      rep ++ replaceAux fuel ((c :: rest).drop pat.length) pat rep
    else
      c :: replaceAux fuel rest pat rep

/-- Python `str.replace(pat, rep)`: replace every non-overlapping
occurrence of `pat`, scanning left to right.  (Python's behaviour for an
empty pattern is not needed: every call site uses a fixed non-empty
pattern, and an empty pattern is treated as "no occurrence" here.) -/
def replace (s pat rep : Str) : Str :=
  replaceAux s.length s pat rep

/-- Python `sep.join(xs)`. -/
def joinSep (sep : Str) : List Str → Str
  | [] => []
  | [x] => x
  | x :: y :: xs => x ++ sep ++ joinSep sep (y :: xs)

theorem toLower_idem (c : Char) : c.toLower.toLower = c.toLower := by
  unfold Char.toLower
  by_cases h : 65 ≤ c.toNat ∧ c.toNat ≤ 90
  · rw [if_pos h]
    have hv : (Char.ofNat (c.toNat + 32)).toNat = c.toNat + 32 := by
      have hval : Char.isValidCharNat (c.toNat + 32) := Or.inl (by omega)
      rw [Char.ofNat, dif_pos hval]
      rfl
    rw [if_neg]
    rw [hv]
    omega
  · rw [if_neg h, if_neg h]

theorem mem_replaceAux {c : Char} (fuel : Nat) (s pat rep : Str) :
    c ∈ replaceAux fuel s pat rep → c ∈ s ∨ c ∈ rep := by
  induction fuel generalizing s with
  | zero => exact fun h => Or.inl h
  | succ n ih =>
    cases s with
    | nil => intro h; cases h
    | cons a rest =>
      rw [replaceAux]
      split
      · intro hc
        rcases List.mem_append.1 hc with hr | hrec
        · exact Or.inr hr
        · rcases ih _ hrec with hs | hr
          · exact Or.inl (List.mem_of_mem_drop hs)
          · exact Or.inr hr
      · intro hc
        rcases List.mem_cons.1 hc with rfl | hrec
        · exact Or.inl (List.mem_cons_self _ _)
        · rcases ih _ hrec with hs | hr
          · exact Or.inl (List.mem_cons_of_mem _ hs)
          · exact Or.inr hr

/-- Membership in the output of `replace` comes from the input or from
the replacement text. -/
theorem mem_replace {c : Char} (s pat rep : Str) :
    c ∈ replace s pat rep → c ∈ s ∨ c ∈ rep :=
  mem_replaceAux s.length s pat rep

theorem mem_strip {c : Char} (s : Str) : c ∈ strip s → c ∈ s := by
  intro h
  unfold strip at h
  have h1 := List.mem_reverse.1 h
  have h2 := (List.dropWhile_sublist _).mem h1
  have h3 := List.mem_reverse.1 h2
  exact (List.dropWhile_sublist _).mem h3

theorem mem_rstripSlash {c : Char} (s : Str) : c ∈ rstripSlash s → c ∈ s := by
  intro h
  unfold rstripSlash at h
  have h1 := List.mem_reverse.1 h
  have h2 := (List.dropWhile_sublist _).mem h1
  exact List.mem_reverse.1 h2

theorem lower_eq_self_of_mem {s : Str}
    (h : ∀ c ∈ s, Char.toLower c = c) : lower s = s := by
  unfold lower
  induction s with
  | nil => rfl
  | cons a l ih =>
    simp only [List.map_cons]
    rw [h a (List.mem_cons_self _ _), ih (fun c hc => h c (List.mem_cons_of_mem _ hc))]

theorem mem_lower_fixed {c : Char} (s : Str) (h : c ∈ lower s) :
    Char.toLower c = c := by
  unfold lower at h
  rcases List.mem_map.1 h with ⟨a, _, rfl⟩
  exact toLower_idem a

end Py

/-! ### `clutch_scraper.py` — `LeadManager` -/

namespace ClutchScraper

/-- The pattern `"://www."` used by `normalize_website`. -/
def wwwPat : Str := "://www.".toList

/-- The replacement `"://"` used by `normalize_website`. -/
def wwwRep : Str := "://".toList

/-- `LeadManager.normalize_website`:
`url.lower().strip()`, then `rstrip('/')`, then `replace('://www.', '://')`;
an empty (falsy) URL maps to the empty string. -/
def normalize_website (url : Str) : Str :=
  if url = [] then []
  else Py.replace (Py.rstripSlash (Py.strip (Py.lower url))) wwwPat wwwRep

/-- State of a `LeadManager` together with the `Lead` table it talks to.
`store` is the `website` column of the `Lead` rows; `processed` is the
in-memory `processed_websites` set (kept as a list). -/
structure LeadMgr where
  processed : List Str
  store : List Str
deriving DecidableEq

/-- `LeadManager.load_existing_websites`: the set
`{url.lower().strip() : url ∈ store, url truthy}`. -/
def load_existing_websites (store : List Str) : List Str :=
  (store.filter (fun u => u ≠ [])).map (fun u => Py.strip (Py.lower u))

/-- `LeadManager.is_duplicate`: is the normalized website in the
in-memory set? -/
def is_duplicate (m : LeadMgr) (website : Str) : Bool :=
  decide (normalize_website website ∈ m.processed)

/-- `LeadManager.save_lead`.  Returns the success flag and the new state.
`get_or_create(website=w, defaults={..., 'website': w.strip()})` looks a
row up by the normalized website `w` and, on creation, stores
`w.strip()` (Django merges `defaults` over the lookup kwargs). -/
def save_lead (m : LeadMgr) (name website : Str) : Bool × LeadMgr :=
  let w := normalize_website website
  if w = [] ∨ name = [] then (false, m)
  else if w ∈ m.processed then (false, m)
  else if w ∈ m.store then (false, m)
  else (true, { processed := m.processed ++ [w], store := m.store ++ [Py.strip w] })

/-- Every character of a normalized website is fixed by `toLower`. -/
theorem normalize_website_lower_fixed (u : Str) :
    ∀ c ∈ normalize_website u, Char.toLower c = c := by
  intro c hc
  unfold normalize_website at hc
  by_cases hu : u = []
  · rw [if_pos hu] at hc; cases hc
  · rw [if_neg hu] at hc
    rcases Py.mem_replace _ _ _ hc with hs | hr
    · exact Py.mem_lower_fixed u
        (Py.mem_strip _ (Py.mem_rstripSlash _ hs))
    · have hw : wwwRep = [':', '/', '/'] := rfl
      rw [hw] at hr
      simp only [List.mem_cons, List.not_mem_nil, or_false] at hr
      rcases hr with rfl | rfl | rfl <;> decide

/-- `normalize_website` output is already lower-case. -/
theorem lower_normalize_website (u : Str) :
    Py.lower (normalize_website u) = normalize_website u :=
  Py.lower_eq_self_of_mem (normalize_website_lower_fixed u)

/-- Claim C3, counterexample: `normalize_website` is not idempotent.
On `"http://www."` a single application yields `"http://"` (the
`'://www.'` → `'://'` substitution leaves trailing slashes behind),
and a second application strips those slashes, yielding `"http:"`. -/
theorem normalize_website_not_idem :
    normalize_website "http://www.".toList = "http://".toList
    ∧ normalize_website (normalize_website "http://www.".toList) = "http:".toList
    ∧ normalize_website (normalize_website "http://www.".toList)
        ≠ normalize_website "http://www.".toList := by
  decide

/-- Claim C3 (amended): a single application of `normalize_website`
lowercases the URL, strips outer whitespace, removes trailing slashes
and rewrites `'://www.'` to `'://'`; it is idempotent on every input
whose normalization is a fixed point of the whitespace-strip, the
trailing-slash strip and the `'://www.'` substitution (being lower-case
is automatic).  It is not idempotent in general: see
`normalize_website_not_idem`. -/
theorem normalize_website_idem_amended (u : Str)
    (h1 : Py.strip (normalize_website u) = normalize_website u)
    (h2 : Py.rstripSlash (normalize_website u) = normalize_website u)
    (h3 : Py.replace (normalize_website u) wwwPat wwwRep = normalize_website u) :
    normalize_website (normalize_website u) = normalize_website u := by
  have hl := lower_normalize_website u
  by_cases h0 : normalize_website u = []
  · rw [h0]; rfl
  · have hdef : normalize_website (normalize_website u)
        = if normalize_website u = [] then []
          else Py.replace (Py.rstripSlash (Py.strip (Py.lower (normalize_website u))))
            wwwPat wwwRep := rfl
    rw [hdef, if_neg h0, hl, h1, h2, h3]

/-- Witness for `normalize_website_idem_amended` at the concrete URL
`"https://WWW.Example.com/"`, whose normalization
`"https://example.com"` satisfies all three fixed-point hypotheses. -/
theorem normalize_website_idem_amended_witness :
    normalize_website (normalize_website "https://WWW.Example.com/".toList)
      = normalize_website "https://WWW.Example.com/".toList :=
  normalize_website_idem_amended "https://WWW.Example.com/".toList
    (by decide) (by decide) (by decide)

/-- Claim C2, counterexample: a website can be present in the store in
non-normalized form (for instance inserted by the CSV importer or the
intake endpoint, which do not normalize).  With
`"https://example.com/"` (trailing slash) stored, `save_lead` for the
equivalent URL `"https://Example.com/"` (case difference only) does not
report a skip: it succeeds and inserts a second `Lead` row, because
both the in-memory duplicate set and the `get_or_create` lookup compare
against the normalized form `"https://example.com"`, which matches
neither the stored string nor its `lower().strip()` image. -/
theorem save_lead_duplicate_insert :
    (save_lead
      { processed := load_existing_websites ["https://example.com/".toList],
        store := ["https://example.com/".toList] }
      "Acme".toList "https://Example.com/".toList).1 = true
    ∧ (save_lead
      { processed := load_existing_websites ["https://example.com/".toList],
        store := ["https://example.com/".toList] }
      "Acme".toList "https://Example.com/".toList).2.store.length = 2 := by
  decide

/-- Claim C2 (amended): for every website `W` already present in the
store **in a form fixed by `lower().strip()`** (in particular, any
website that `save_lead` itself stored), calling `save_lead` — with the
in-memory set freshly loaded from the store — on any URL that
normalizes to `W` reports a skip and changes nothing, so no second
`Lead` row is inserted.  As originally stated the claim is false when
the stored spelling is not normalized (see
`save_lead_duplicate_insert`). -/
theorem save_lead_skips_normalized (m : LeadMgr) (W U name : Str)
    (hm : m.processed = load_existing_websites m.store)
    (hW : W ∈ m.store)
    (hfix : Py.strip (Py.lower W) = W)
    (hU : normalize_website U = W) :
    save_lead m name U = (false, m) := by
  simp only [save_lead, hU]
  by_cases hcond : W = [] ∨ name = []
  · rw [if_pos hcond]
  · have h0 : W ≠ [] := fun h => hcond (Or.inl h)
    have hp : W ∈ m.processed := by
      rw [hm]
      exact List.mem_map.2
        ⟨W, List.mem_filter.2 ⟨hW, decide_eq_true h0⟩, hfix⟩
    rw [if_neg hcond, if_pos hp]

/-- Witness for `save_lead_skips_normalized`: with
`"https://example.com"` stored (normalized form), `save_lead` for the
equivalent `"https://WWW.Example.com/"` skips and leaves the state
unchanged. -/
theorem save_lead_skips_normalized_witness :
    save_lead
      { processed := load_existing_websites ["https://example.com".toList],
        store := ["https://example.com".toList] }
      "Acme".toList "https://WWW.Example.com/".toList
    = (false,
      { processed := load_existing_websites ["https://example.com".toList],
        store := ["https://example.com".toList] }) :=
  save_lead_skips_normalized _ "https://example.com".toList _ _
    rfl (by decide) (by decide) (by decide)

end ClutchScraper

/-! ### `manual_scoring.py` — rule-based qualification -/

namespace ManualScoring

def TARGET_TITLES : List Str :=
  ["founder", "co-founder", "owner", "managing partner", "principal",
   "partner", "ceo"].map String.toList

def STRONG_KEYWORDS : List Str :=
  ["marketing agency", "digital marketing agency", "creative agency",
   "branding agency", "seo agency", "paid ads agency",
   "lead generation agency", "b2b marketing agency", "growth agency",
   "consulting firm", "marketing consultancy"].map String.toList

def MEDIUM_KEYWORDS : List Str :=
  ["marketing", "advertising", "branding", "seo", "paid ads",
   "content marketing", "email marketing", "growth marketing",
   "client acquisition", "demand generation", "b2b", "consulting",
   "agency"].map String.toList

def NEGATIVE_KEYWORDS : List Str :=
  ["ecommerce", "shopify", "amazon", "dropshipping", "retail",
   "restaurant", "church", "ministry", "non-profit", "ngo", "school",
   "college", "university", "manufacturing", "wholesale", "real estate",
   "brokerage", "crypto", "nft", "token"].map String.toList

/-- The fields of a `Lead` row read by `score_and_classify`.  Text
fields collapse Python's two falsy values (`None` and `""`) into the
empty string, which is faithful because the code only tests their
truthiness and concatenates them. -/
structure MLead where
  employees : Option Int
  title : Str
  website : Str
  seo_description : Str
  company : Str
  keywords : Str
deriving DecidableEq

/-- The first hard gate: `not lead.employees or not (2 <= lead.employees <= 25)`
(`None` and `0` are falsy). -/
def teamSizeRejected : Option Int → Bool
  | none => true
  | some e => e == 0 || !(decide (2 ≤ e) && decide (e ≤ 25))

/-- `score_and_classify(lead)`: returns `(icp, intent, reason)`. -/
def score_and_classify (l : MLead) : Bool × Str × Str :=
  if teamSizeRejected l.employees = true then
    (false, "REJECTED".toList, "Team size outside 2–25".toList)
  else if l.title = [] ∨ !(TARGET_TITLES.any (fun t => Py.containsSub (Py.lower l.title) t)) then
    (false, "REJECTED".toList, "Title not revenue-owning".toList)
  else if l.website = [] ∧ l.seo_description = [] then
    (false, "REJECTED".toList, "No website or description".toList)
  else
    let text := Py.lower (Py.joinSep " ".toList
      ([l.company, l.keywords, l.seo_description].filter (fun s => s ≠ [])))
    match NEGATIVE_KEYWORDS.find? (fun bad => Py.containsSub text bad) with
    | some bad => (false, "REJECTED".toList, "Negative signal: ".toList ++ bad)
    | none =>
      let strong_hits := STRONG_KEYWORDS.filter (fun kw => Py.containsSub text kw)
      let medium_hits := MEDIUM_KEYWORDS.filter (fun kw => Py.containsSub text kw)
      if strong_hits ≠ [] then
        (true, "HIGH".toList,
         "Strong intent: ".toList ++ Py.joinSep ", ".toList (strong_hits.take 2))
      else if 2 ≤ medium_hits.length then
        (true, "MEDIUM".toList,
         "Service signals: ".toList ++ Py.joinSep ", ".toList (medium_hits.take 3))
      else
        (false, "LOW".toList, "Weak service intent".toList)

/-- Claim C6: a lead whose `employees` is 1 or 26 (just outside the
inclusive 2–25 band) is always rejected by the first hard gate with the
team-size reason, whatever its title, website, description, company or
keywords. -/
theorem score_and_classify_team_size_boundary (l : MLead)
    (h : l.employees = some 1 ∨ l.employees = some 26) :
    score_and_classify l
      = (false, "REJECTED".toList, "Team size outside 2–25".toList) := by
  rcases h with h | h <;> · unfold score_and_classify; rw [h]; rfl

/-- Witness for `score_and_classify_team_size_boundary`: a lead with 26
employees and otherwise perfect signals (founder title, strong agency
keywords) is still rejected for team size. -/
theorem score_and_classify_team_size_boundary_witness :
    score_and_classify
      { employees := some 26, title := "Founder & CEO".toList,
        website := "https://acme.agency".toList,
        seo_description := "We are a b2b marketing agency".toList,
        company := "Acme".toList, keywords := "seo agency".toList }
      = (false, "REJECTED".toList, "Team size outside 2–25".toList) :=
  score_and_classify_team_size_boundary _ (Or.inr rfl)

end ManualScoring

/-! ### `views.py` — HTTP tracking and intake endpoints -/

namespace Views

/-- A parsed intake request body: a JSON object with (possibly absent)
string fields.  `create_lead` reads exactly these keys with
`data.get(key, "")`.  A request whose body is not valid JSON is
modelled as `none` at the call site. -/
structure ReqData where
  company : Option Str
  email : Option Str
  description : Option Str
deriving DecidableEq

/-- A `WebsiteLead` row; `id` models the autoincrement primary key. -/
structure WebsiteLead where
  id : Nat
  company_name : Str
  email : Str
  description : Str
deriving DecidableEq

/-- The observable part of the `JsonResponse`: status code, and the
`id` field of the success payload. -/
structure JsonResp where
  status : Nat
  id : Option Nat
deriving DecidableEq

/-- `create_lead(request)`.  `body = none` models a body that
`json.loads` rejects; the exception falls through to the generic
`except` handler, which returns 500.  A well-formed body creates one
`WebsiteLead` row and returns 201 with its id. -/
def create_lead (body : Option ReqData) (store : List WebsiteLead) :
    JsonResp × List WebsiteLead :=
  match body with
  | none => ({ status := 500, id := none }, store)
  | some d =>
    let company := Py.strip (d.company.getD [])
    let email := Py.strip (d.email.getD [])
    let description := Py.strip (d.description.getD [])
    if company = [] then ({ status := 400, id := none }, store)
    else if email = [] then ({ status := 400, id := none }, store)
    else
      ({ status := 201, id := some (store.length + 1) },
       store ++ [{ id := store.length + 1, company_name := company,
                   email := email, description := description }])

/-- A parsed body that is missing a non-empty `company` or `email`. -/
def missingFieldBody : Option ReqData → Bool
  | none => false
  | some d =>
    decide (Py.strip (d.company.getD []) = []) || decide (Py.strip (d.email.getD []) = [])

/-- A body that parses and carries non-empty `company` and `email`. -/
def wellFormedBody : Option ReqData → Bool
  | none => false
  | some d =>
    !decide (Py.strip (d.company.getD []) = []) && !decide (Py.strip (d.email.getD []) = [])

/-- Claim C4, counterexample: a request whose body is not valid JSON
receives a 500 response (the `json.loads` exception is caught by the
generic handler), not the 400 the claim asserts; no record is
created. -/
theorem create_lead_invalid_json_500 :
    (create_lead none []).1.status = 500
    ∧ (create_lead none []).1.status ≠ 400
    ∧ (create_lead none []).2 = [] := by
  decide

/-- Claim C4 (amended): a 400 response occurs exactly for a valid JSON
body lacking a non-empty `company` or `email`; a body that is not
valid JSON receives 500 (with diagnostic detail), not 400; a
well-formed request receives 201 with the created record's id; and a
record is created exactly in the 201 case. -/
theorem create_lead_amended (body : Option ReqData) (store : List WebsiteLead) :
    ((create_lead body store).1.status = 400 ↔ missingFieldBody body = true)
    ∧ ((create_lead body store).1.status = 500 ↔ body = none)
    ∧ ((create_lead body store).1.status = 201 ↔ wellFormedBody body = true)
    ∧ ((create_lead body store).2 = store ↔ wellFormedBody body = false)
    ∧ ((create_lead body store).1.id
        = if wellFormedBody body = true then some (store.length + 1) else none)
    ∧ ((create_lead body store).2.length
        = if wellFormedBody body = true then store.length + 1 else store.length) := by
  match body with
  | none => simp [create_lead, missingFieldBody, wellFormedBody]
  | some d =>
    have happ : store ++ [(⟨store.length + 1, Py.strip (d.company.getD []),
        Py.strip (d.email.getD []), Py.strip (d.description.getD [])⟩ : WebsiteLead)]
        ≠ store := by
      intro h
      have := congrArg List.length h
      simp at this
    by_cases hc : Py.strip (d.company.getD []) = [] <;>
      by_cases he : Py.strip (d.email.getD []) = [] <;>
        simp [create_lead, missingFieldBody, wellFormedBody, hc, he, happ]

/-- The entities touched by the open-tracking endpoint: the fields of
`VerifiedLead` that `track_email_open` reads or writes. -/
structure TrackedLead where
  lead_id : Str
  opened : Bool
  opened_date : Option Int
deriving DecidableEq

/-- Log severities emitted by `track_email_open`. -/
inductive LogLevel
  | info
  | warning
  | error
deriving DecidableEq

/-- The HTTP response of the tracking endpoint. -/
structure GifResp where
  status : Nat
  content_type : Str
  body : List Nat
deriving DecidableEq

/-- The hard-coded 43-byte transparent 1×1 GIF returned on every path. -/
def transparent_gif : List Nat :=
  [0x47, 0x49, 0x46, 0x38, 0x39, 0x61, 0x01, 0x00, 0x01, 0x00, 0x80, 0x00, 0x00,
   0xff, 0xff, 0xff, 0x00, 0x00, 0x00, 0x21, 0xf9, 0x04, 0x01, 0x00, 0x00, 0x00,
   0x00, 0x2c, 0x00, 0x00, 0x00, 0x00, 0x01, 0x00, 0x01, 0x00, 0x00, 0x02, 0x02,
   0x44, 0x01, 0x00, 0x3b]

/-- `track_email_open(request, lead_id)`: `VerifiedLead.objects.get`
either finds no row (`DoesNotExist` → warning log), exactly one row
(first open recorded idempotently, info log only on the first open), or
several rows (`MultipleObjectsReturned` caught by the generic handler →
error log).  Every path returns 200 with the transparent GIF. -/
def track_email_open (store : List TrackedLead) (lid : Str) (now : Int) :
    GifResp × List TrackedLead × List LogLevel :=
  let resp : GifResp :=
    { status := 200, content_type := "image/gif".toList, body := transparent_gif }
  match store.filter (fun l => l.lead_id == lid) with
  | [] => (resp, store, [LogLevel.warning])
  | [l] =>
    if l.opened then (resp, store, [])
    else
      (resp,
       store.map (fun x =>
         if x.lead_id == lid then { x with opened := true, opened_date := some now } else x),
       [LogLevel.info])
  | _ => (resp, store, [LogLevel.error])

/-- Claim C8: an open-tracking request whose `lead_id` matches no
stored record still returns HTTP 200 with content type `image/gif` and
the fixed transparent-pixel bytes, logs exactly one warning, and leaves
the store unchanged. -/
theorem track_email_open_unknown_lead (store : List TrackedLead) (lid : Str) (now : Int)
    (h : ∀ l ∈ store, l.lead_id ≠ lid) :
    track_email_open store lid now
      = ({ status := 200, content_type := "image/gif".toList, body := transparent_gif },
         store, [LogLevel.warning]) := by
  have hf : store.filter (fun l => l.lead_id == lid) = [] :=
    List.filter_eq_nil_iff.2 (fun l hl => by simpa using h l hl)
  simp only [track_email_open, hf]

/-- Witness for `track_email_open_unknown_lead`: a store holding one
lead with a different public id. -/
theorem track_email_open_unknown_lead_witness :
    track_email_open
      [{ lead_id := "abc-123".toList, opened := false, opened_date := none }]
      "zzz-999".toList 1700000000
      = ({ status := 200, content_type := "image/gif".toList, body := transparent_gif },
         [{ lead_id := "abc-123".toList, opened := false, opened_date := none }],
         [LogLevel.warning]) :=
  track_email_open_unknown_lead _ _ _ (by decide)

end Views

/-! ### `first_message.py` — `SmartOutreachEngine` inbox rotation -/

namespace FirstMessage

/-- The `SMTPConfig` dataclass (password omitted: never read by the
rotation logic). `daily_limit` defaults to 10 in the source. -/
structure SMTPConfig where
  provider : Str
  host : Str
  port : Nat
  use_tls : Bool
  username : Str
  daily_limit : Nat
deriving DecidableEq

/-- Loop body of `get_next_inbox`: `fuel` counts the skip iterations
(the Python loop runs `while attempts < len(self.smtp_configs)` and
increments `attempts` only when an inbox is skipped).  Returns the
chosen config and the new `current_inbox_index`, or `none` for the
`raise` when every inbox is exhausted. -/
def getNextInboxGo (cs : List SMTPConfig) (usage : Str → Nat) :
    Nat → Nat → Option (SMTPConfig × Nat)
  | 0, _ => none
  | fuel + 1, i =>
    match cs[i % cs.length]? with
    | none => none
    | some c =>
      if usage c.username < c.daily_limit then some (c, (i + 1) % cs.length)
      else getNextInboxGo cs usage fuel ((i + 1) % cs.length)

/-- `SmartOutreachEngine.get_next_inbox`, over the configured inboxes
`cs`, the in-memory `inbox_usage` counters and the current index. -/
def get_next_inbox (cs : List SMTPConfig) (usage : Str → Nat) (i : Nat) :
    Option (SMTPConfig × Nat) :=
  getNextInboxGo cs usage cs.length i

/-- `SmartOutreachEngine.send_email_with_tracking`, abstracted over the
transport outcome `ok` (whether `email.send()` raises): on success the
selected inbox's usage counter is incremented by one, on failure
nothing changes. -/
def send_email_with_tracking (usage : Str → Nat) (cfg : SMTPConfig) (ok : Bool) :
    Bool × (Str → Nat) :=
  if ok then (true, fun u => if u = cfg.username then usage u + 1 else usage u)
  else (false, usage)

theorem getNextInboxGo_some (cs : List SMTPConfig) (usage : Str → Nat) :
    ∀ fuel i c j, getNextInboxGo cs usage fuel i = some (c, j) →
      usage c.username < c.daily_limit ∧ c ∈ cs := by
  intro fuel
  induction fuel with
  | zero => intro i c j h; cases h
  | succ n ih =>
    intro i c j h
    cases hg : cs[i % cs.length]? with
    | none =>
      rw [getNextInboxGo, hg] at h
      cases h
    | some c0 =>
      have hstep : getNextInboxGo cs usage (n + 1) i
          = if usage c0.username < c0.daily_limit then some (c0, (i + 1) % cs.length)
            else getNextInboxGo cs usage n ((i + 1) % cs.length) := by
        rw [getNextInboxGo, hg]
      rw [hstep] at h
      by_cases hlt : usage c0.username < c0.daily_limit
      · rw [if_pos hlt] at h
        cases h
        exact ⟨hlt, List.getElem?_mem hg⟩
      · rw [if_neg hlt] at h
        exact ih _ c j h

theorem getNextInboxGo_none_exhausted (cs : List SMTPConfig) (usage : Str → Nat) :
    ∀ fuel i, getNextInboxGo cs usage fuel i = none →
      ∀ k, k < fuel → ∀ c, cs[(i + k) % cs.length]? = some c →
        c.daily_limit ≤ usage c.username := by
  intro fuel
  induction fuel with
  | zero => intro i _ k hk; omega
  | succ n ih =>
    intro i h k hk c hc
    cases hg : cs[i % cs.length]? with
    | none =>
      exfalso
      have hlen : cs.length ≤ i % cs.length := List.getElem?_eq_none_iff.1 hg
      have hpos : 0 < cs.length := by
        rcases Nat.eq_zero_or_pos cs.length with h0 | h0
        · rw [List.length_eq_zero] at h0
          subst h0
          simp at hc
        · exact h0
      exact absurd (Nat.mod_lt i hpos) (by omega)
    | some c0 =>
      have hstep : getNextInboxGo cs usage (n + 1) i
          = if usage c0.username < c0.daily_limit then some (c0, (i + 1) % cs.length)
            else getNextInboxGo cs usage n ((i + 1) % cs.length) := by
        rw [getNextInboxGo, hg]
      rw [hstep] at h
      by_cases hlt : usage c0.username < c0.daily_limit
      · rw [if_pos hlt] at h; cases h
      · rw [if_neg hlt] at h
        cases k with
        | zero =>
          rw [Nat.add_zero] at hc
          rw [hc] at hg
          cases hg
          omega
        | succ k0 =>
          have hidx : ((i + 1) % cs.length + k0) % cs.length = (i + (k0 + 1)) % cs.length := by
            rw [Nat.mod_add_mod]
            congr 1
            omega
          exact ih _ h k0 (by omega) c (by rw [hidx]; exact hc)

theorem getNextInboxGo_none_of_exhausted (cs : List SMTPConfig) (usage : Str → Nat)
    (hall : ∀ c ∈ cs, c.daily_limit ≤ usage c.username) :
    ∀ fuel i, getNextInboxGo cs usage fuel i = none := by
  intro fuel
  induction fuel with
  | zero => intro i; rfl
  | succ n ih =>
    intro i
    cases hg : cs[i % cs.length]? with
    | none => rw [getNextInboxGo, hg]
    | some c0 =>
      have hstep : getNextInboxGo cs usage (n + 1) i
          = if usage c0.username < c0.daily_limit then some (c0, (i + 1) % cs.length)
            else getNextInboxGo cs usage n ((i + 1) % cs.length) := by
        rw [getNextInboxGo, hg]
      rw [hstep, if_neg (by have := hall c0 (List.getElem?_mem hg); omega)]
      exact ih _

/-- Index-shift helper: every index of a list of length `n` is reached
from any starting point `i` within `n` cyclic steps. -/
theorem exists_cyclic_shift (n i idx : Nat) (hn : 0 < n) (hidx : idx < n) :
    ∃ k, k < n ∧ (i + k) % n = idx := by
  have hr : i % n < n := Nat.mod_lt i hn
  by_cases hle : i % n ≤ idx
  · refine ⟨idx - i % n, by omega, ?_⟩
    rw [Nat.add_mod, Nat.mod_eq_of_lt (show idx - i % n < n by omega)]
    rw [show i % n + (idx - i % n) = idx by omega]
    exact Nat.mod_eq_of_lt hidx
  · refine ⟨idx + n - i % n, by omega, ?_⟩
    rw [Nat.add_mod, Nat.mod_eq_of_lt (show idx + n - i % n < n by omega)]
    rw [show i % n + (idx + n - i % n) = idx + n by omega]
    rw [Nat.add_mod_right]
    exact Nat.mod_eq_of_lt hidx

/-- `get_next_inbox` raises (returns `none`) exactly when every
configured inbox has reached its daily limit. -/
theorem get_next_inbox_none_iff (cs : List SMTPConfig) (usage : Str → Nat) (i : Nat) :
    get_next_inbox cs usage i = none
      ↔ ∀ c ∈ cs, c.daily_limit ≤ usage c.username := by
  constructor
  · intro h c hc
    rcases List.getElem_of_mem hc with ⟨idx, hidx, hcidx⟩
    have hpos : 0 < cs.length := by omega
    rcases exists_cyclic_shift cs.length i idx hpos hidx with ⟨k, hk, hik⟩
    refine getNextInboxGo_none_exhausted cs usage cs.length i h k hk c ?_
    rw [hik, List.getElem?_eq_getElem hidx, hcidx]
  · intro hall
    exact getNextInboxGo_none_of_exhausted cs usage hall cs.length i

/-- Claim C5 (amended, `SmartOutreachEngine` part): the engine's
rotator never returns an inbox whose per-run counter has reached its
daily limit; it raises exactly when every configured inbox is at its
limit; a successful tracked send increments the selected inbox's
counter by one and a failed send leaves the counters unchanged.  (The
`SMTPManager` rotation used by the outreach/follow-up batch senders
keeps no counters at all and skips nothing — see
`OutreachSend.rotation_quota_bypass`.) -/
theorem inbox_rotation_quota (cs : List SMTPConfig) (usage : Str → Nat)
    (i : Nat) (ok : Bool) (u : Str) :
    (∀ c j, get_next_inbox cs usage i = some (c, j) →
      usage c.username < c.daily_limit
      ∧ (send_email_with_tracking usage c ok).1 = ok
      ∧ ((send_email_with_tracking usage c true).2 u
          = if u = c.username then usage u + 1 else usage u)
      ∧ (send_email_with_tracking usage c false).2 u = usage u)
    ∧ (get_next_inbox cs usage i = none
        ↔ cs.all (fun c => decide (c.daily_limit ≤ usage c.username)) = true) := by
  constructor
  · intro c j h
    refine ⟨(getNextInboxGo_some cs usage cs.length i c j h).1, ?_, ?_, ?_⟩
    · cases ok <;> rfl
    · rfl
    · rfl
  · rw [get_next_inbox_none_iff]
    simp [List.all_eq_true]

/-- Witness for `inbox_rotation_quota`: two inboxes, the first at its
limit; the rotator returns the second, whose counter is below quota,
and a successful send bumps exactly that counter. -/
theorem inbox_rotation_quota_witness :
    (fun u => if u = "a@zoho.com".toList then 50 else 3 : Str → Nat)
        "b@gmail.com".toList < 100
    ∧ ((send_email_with_tracking
        (fun u => if u = "a@zoho.com".toList then 50 else 3)
        { provider := "gmail".toList, host := "smtp.gmail.com".toList, port := 587,
          use_tls := true, username := "b@gmail.com".toList, daily_limit := 100 }
        true).2 "b@gmail.com".toList
        = (fun u => if u = "a@zoho.com".toList then 50 else 3 : Str → Nat)
            "b@gmail.com".toList + 1) := by
  have h := (inbox_rotation_quota
    [{ provider := "zoho-1".toList, host := "smtp.zoho.com".toList, port := 587,
       use_tls := true, username := "a@zoho.com".toList, daily_limit := 50 },
     { provider := "gmail".toList, host := "smtp.gmail.com".toList, port := 587,
       use_tls := true, username := "b@gmail.com".toList, daily_limit := 100 }]
    (fun u => if u = "a@zoho.com".toList then 50 else 3) 0 true
    "b@gmail.com".toList).1
    { provider := "gmail".toList, host := "smtp.gmail.com".toList, port := 587,
      use_tls := true, username := "b@gmail.com".toList, daily_limit := 100 }
    0 (by decide)
  exact ⟨h.1, h.2.2.1.trans (by decide)⟩

end FirstMessage

/-! ### `email_client.py` + `send_outreach.py` — cycling SMTP rotation -/

namespace OutreachSend

/-- One entry of `settings.EMAIL_ACCOUNTS` (password omitted: never
read by the rotation logic). -/
structure EmailAccount where
  EMAIL_HOST_USER : Str
  DISPLAY_NAME : Str
  EMAIL_HOST : Str
  EMAIL_PORT : Nat
deriving DecidableEq

/-- `SMTPManager` state: the account list and the position of the
`itertools.cycle` iterator (`next(self.pool)` yields
`accounts[k % len(accounts)]` and advances `k`). -/
structure SMTPManager where
  accounts : List EmailAccount
  k : Nat
deriving DecidableEq

def defaultAccount : EmailAccount := ⟨[], [], [], 0⟩

/-- `SMTPManager.send_email`: takes the next account from the cycle
unconditionally — no quota check, no counter — and returns
`(account's user, success)` where `ok` is the external transport
outcome (whether `smtplib` raised). -/
def send_email (m : SMTPManager) (ok : Bool) : (Str × Bool) × SMTPManager :=
  let account := m.accounts.getD (m.k % m.accounts.length) defaultAccount
  ((account.EMAIL_HOST_USER, ok), { m with k := m.k + 1 })

/-- One `LeadEmailCopy` row joined with its lead, as read by the batch
sender. -/
structure LeadCopy where
  subject : Str
  body : Str
  lead_email : Str
deriving DecidableEq

/-- One SMTP send as observed on the wire. -/
structure SendRec where
  user : Str
  to_email : Str
  subject : Str
  ok : Bool
deriving DecidableEq

def defaultSendRec : SendRec := ⟨[], [], [], false⟩

def defaultLeadCopy : LeadCopy := ⟨[], [], []⟩

/-- The hard-coded health-check recipient in `send_rotating_outreach_batch`. -/
def healthCheckTo : Str := "michaelogaje033@gmail.com".toList

def healthCheckSubject : Str := "Test Email — Outreach System Health Check".toList

/-- `send_rotating_outreach_batch`: for each copy, one outreach send to
the lead followed unconditionally by one health-check send to the fixed
gmail address; `oracle t` is the transport outcome of the `t`-th send
of the rotation pool.  Returns the trace of SMTP sends and the final
manager state.  (The per-copy database status updates do not feed back
into the send loop and are not modelled.) -/
def send_rotating_outreach_batch (oracle : Nat → Bool) :
    List LeadCopy → SMTPManager → List SendRec × SMTPManager
  | [], m => ([], m)
  | c :: rest, m =>
    let r1 := send_email m (oracle m.k)
    let r2 := send_email r1.2 (oracle r1.2.k)
    let tail := send_rotating_outreach_batch oracle rest r2.2
    (⟨r1.1.1, c.lead_email, c.subject, r1.1.2⟩
       :: ⟨r2.1.1, healthCheckTo, healthCheckSubject, r2.1.2⟩ :: tail.1,
     tail.2)

/-- Claim C9: the batch sender issues exactly two SMTP sends per
lead-email copy — the outreach email to the lead at even trace
positions, the health-check email to the hard-coded gmail address at
odd positions — consuming `2N` positions of the rotation cycle for `N`
copies, whatever the transport outcomes; every send uses the next
account of the cycle. -/
theorem send_rotating_outreach_batch_two_sends (oracle : Nat → Bool)
    (copies : List LeadCopy) (m : SMTPManager) :
    ((send_rotating_outreach_batch oracle copies m).1.length = 2 * copies.length)
    ∧ ((send_rotating_outreach_batch oracle copies m).2.k = m.k + 2 * copies.length)
    ∧ ((send_rotating_outreach_batch oracle copies m).2.accounts = m.accounts)
    ∧ (∀ i, i < copies.length →
        ((send_rotating_outreach_batch oracle copies m).1.getD (2 * i)
            defaultSendRec).to_email = (copies.getD i defaultLeadCopy).lead_email
        ∧ ((send_rotating_outreach_batch oracle copies m).1.getD (2 * i + 1)
            defaultSendRec).to_email = healthCheckTo)
    ∧ (∀ j, j < 2 * copies.length →
        ((send_rotating_outreach_batch oracle copies m).1.getD j defaultSendRec).user
          = (m.accounts.getD ((m.k + j) % m.accounts.length)
              defaultAccount).EMAIL_HOST_USER) := by
  induction copies generalizing m with
  | nil =>
    refine ⟨rfl, by simp [send_rotating_outreach_batch], rfl, ?_, ?_⟩
    · intro i hi
      simp at hi
    · intro j hj
      simp [send_rotating_outreach_batch] at hj
  | cons c rest ih =>
    have hstep : send_rotating_outreach_batch oracle (c :: rest) m
        = (⟨(m.accounts.getD (m.k % m.accounts.length) defaultAccount).EMAIL_HOST_USER,
              c.lead_email, c.subject, oracle m.k⟩
           :: ⟨(m.accounts.getD ((m.k + 1) % m.accounts.length) defaultAccount).EMAIL_HOST_USER,
              healthCheckTo, healthCheckSubject, oracle (m.k + 1)⟩
           :: (send_rotating_outreach_batch oracle rest ⟨m.accounts, m.k + 2⟩).1,
           (send_rotating_outreach_batch oracle rest ⟨m.accounts, m.k + 2⟩).2) := rfl
    obtain ⟨ihlen, ihk, ihacc, ihto, ihuser⟩ := ih ⟨m.accounts, m.k + 2⟩
    refine ⟨?_, ?_, ?_, ?_, ?_⟩
    · rw [hstep]
      simp only [List.length_cons, ihlen]
      omega
    · rw [hstep, ihk]
      show m.k + 2 + 2 * rest.length = m.k + 2 * (c :: rest).length
      simp only [List.length_cons]
      omega
    · rw [hstep]
      exact ihacc.trans rfl
    · intro i hi
      cases i with
      | zero => rw [hstep]; exact ⟨rfl, rfl⟩
      | succ i0 =>
        have hi0 : i0 < rest.length := by
          simp only [List.length_cons] at hi
          omega
        rw [hstep, show 2 * (i0 + 1) = 2 * i0 + 1 + 1 from by omega,
          show 2 * i0 + 1 + 1 + 1 = (2 * i0 + 1) + 1 + 1 from by omega]
        simp only [List.getD_cons_succ]
        exact ihto i0 hi0
    · intro j hj
      cases j with
      | zero =>
        rw [hstep]
        show (m.accounts.getD (m.k % m.accounts.length) defaultAccount).EMAIL_HOST_USER
          = (m.accounts.getD ((m.k + 0) % m.accounts.length) defaultAccount).EMAIL_HOST_USER
        rw [Nat.add_zero]
      | succ j1 =>
        cases j1 with
        | zero => rw [hstep]; rfl
        | succ j0 =>
          have hj0 : j0 < 2 * rest.length := by
            simp only [List.length_cons] at hj
            omega
          rw [hstep]
          simp only [List.getD_cons_succ]
          rw [show m.k + (j0 + 1 + 1) = m.k + 2 + j0 from by omega]
          exact ihuser j0 hj0

/-- Witness for `send_rotating_outreach_batch_two_sends`: two copies
and one configured account, all transport outcomes failing — still
four sends, all from that account, health checks at odd positions. -/
theorem send_rotating_outreach_batch_two_sends_witness :
    ((send_rotating_outreach_batch (fun _ => false)
        [⟨"s1".toList, "b1".toList, "x@a.com".toList⟩,
         ⟨"s2".toList, "b2".toList, "y@b.com".toList⟩]
        ⟨[⟨"acct@zoho.com".toList, "Dimeji".toList, "smtp.zoho.com".toList, 587⟩], 0⟩).1.length
      = 4)
    ∧ ((send_rotating_outreach_batch (fun _ => false)
        [⟨"s1".toList, "b1".toList, "x@a.com".toList⟩,
         ⟨"s2".toList, "b2".toList, "y@b.com".toList⟩]
        ⟨[⟨"acct@zoho.com".toList, "Dimeji".toList, "smtp.zoho.com".toList, 587⟩], 0⟩).1.getD 1
          defaultSendRec).to_email = healthCheckTo
    ∧ ((send_rotating_outreach_batch (fun _ => false)
        [⟨"s1".toList, "b1".toList, "x@a.com".toList⟩,
         ⟨"s2".toList, "b2".toList, "y@b.com".toList⟩]
        ⟨[⟨"acct@zoho.com".toList, "Dimeji".toList, "smtp.zoho.com".toList, 587⟩], 0⟩).1.getD 3
          defaultSendRec).user = "acct@zoho.com".toList := by
  have h := send_rotating_outreach_batch_two_sends (fun _ => false)
    [⟨"s1".toList, "b1".toList, "x@a.com".toList⟩,
     ⟨"s2".toList, "b2".toList, "y@b.com".toList⟩]
    ⟨[⟨"acct@zoho.com".toList, "Dimeji".toList, "smtp.zoho.com".toList, 587⟩], 0⟩
  exact ⟨h.1, (h.2.2.2.1 0 (by decide)).2, (h.2.2.2.2 3 (by decide)).trans (by decide)⟩

/-- Claim C5, counterexample: quota-skipping does **not** hold for
every rotation-based send in the pipeline.  With a single account whose
engine-side daily limit (the `SMTPConfig` default, 10) is already
reached, the engine rotator raises — but the `SMTPManager` rotation
used by `send_rotating_outreach_batch` keeps no counter at all: a run
over 11 copies issues 22 sends, all from that account. -/
theorem rotation_quota_bypass :
    FirstMessage.get_next_inbox
      [{ provider := "zoho-1".toList, host := "smtp.zoho.com".toList, port := 587,
         use_tls := true, username := "acct@zoho.com".toList, daily_limit := 10 }]
      (fun _ => 10) 0 = none
    ∧ ((send_rotating_outreach_batch (fun _ => true)
        (List.replicate 11 ⟨"s".toList, "b".toList, "x@a.com".toList⟩)
        ⟨[⟨"acct@zoho.com".toList, "Dimeji".toList, "smtp.zoho.com".toList, 587⟩], 0⟩).1.length
      = 22)
    ∧ ((send_rotating_outreach_batch (fun _ => true)
        (List.replicate 11 ⟨"s".toList, "b".toList, "x@a.com".toList⟩)
        ⟨[⟨"acct@zoho.com".toList, "Dimeji".toList, "smtp.zoho.com".toList, 587⟩], 0⟩).1.countP
          (fun r => r.user == "acct@zoho.com".toList)
      = 22) := by
  decide

end OutreachSend

/-! ### `score_leads.py` — batch scoring loop -/

namespace ScoreLeads

/-- The `Lead` fields written by the `score_leads.main` loop. -/
structure SLead where
  id : Nat
  score : Bool
  score_reason : Str
  processing : Bool
deriving DecidableEq

/-- One parsed GPT result record: `res.get("icp", False)` and
`res.get("reason", "")`. -/
structure SRes where
  icp : Option Bool
  reason : Option Str
deriving DecidableEq

/-- One iteration of `score_leads.main`: the fetched leads are marked
`processing=True`; if the parsed results are empty or their count does
not match the lead count, every processing flag is reset and nothing
else is written; otherwise results are applied pairwise by `zip`. -/
def scoreLeadsStep (leads : List SLead) (results : List SRes) : List SLead :=
  let marked := leads.map (fun l => { l with processing := true })
  if results.isEmpty || results.length != leads.length then
    marked.map (fun l => { l with processing := false })
  else
    (marked.zip results).map (fun p =>
      { p.1 with score := p.2.icp.getD false,
                 score_reason := p.2.reason.getD [],
                 processing := false })

end ScoreLeads

/-! ### `gpt_scoring.py` — `LeadScorer.process_batch` -/

namespace GptScoring

/-- The `Lead` fields read/written by `save_verified_leads`. -/
structure GLead where
  name : Str
  email : Str
  website : Str
  source : Str
  verified : Bool
deriving DecidableEq

/-- One record parsed from the GPT response; `none` models an absent
key (`lead_data["email"]` raises `KeyError` when `email` is absent, the
other keys fall back to the raw lead). -/
structure GRec where
  name : Option Str
  email : Option Str
  website : Option Str
  source : Option Str
  fit_score : Option Int
  intent_score : Option Int
  personalization_note : Option Str
deriving DecidableEq

/-- A created `VerifiedLead` row. -/
structure VRec where
  name : Str
  email : Str
  website : Str
  source : Str
  fit_score : Int
  intent_score : Int
  personalization_note : Str
deriving DecidableEq

/-- The `VerifiedLead.objects.create` call for one `(lead_data, raw_lead)`
pair; `lead_data.get("website") or raw_lead.website` falls back on both
an absent key and an empty string, while `.get("name", raw_lead.name)`
falls back only on an absent key. -/
def mkVerified (d : GRec) (r : GLead) (e : Str) : VRec :=
  { name := d.name.getD r.name,
    email := e,
    website := match d.website with
               | none => r.website
               | some w => if w = [] then r.website else w,
    source := match d.source with
              | none => r.source
              | some s => if s = [] then r.source else s,
    fit_score := d.fit_score.getD 0,
    intent_score := d.intent_score.getD 0,
    personalization_note := d.personalization_note.getD [] }

/-- The body of the `for lead_data, raw_lead in zip(...)` loop: on a
present `email` key a `VerifiedLead` is created and the raw lead marked
verified (success count +1); on an absent `email` the `KeyError` is
caught, nothing is created or marked (error count +1). -/
def saveLoop : List (GRec × GLead) → List VRec × List GLead × Nat × Nat
  | [] => ([], [], 0, 0)
  | (d, r) :: rest =>
    let t := saveLoop rest
    match d.email with
    | some e =>
      (mkVerified d r e :: t.1, { r with verified := true } :: t.2.1,
       t.2.2.1 + 1, t.2.2.2)
    | none => (t.1, r :: t.2.1, t.2.2.1, t.2.2.2 + 1)

/-- `LeadScorer.save_verified_leads` (non-dry-run): iterates over
`zip(leads_data, raw_leads)` — i.e. the pairwise prefix up to the
shorter list — and returns the created rows, the lead table after the
per-pair `verified` updates, and the success/error counts. -/
def save_verified_leads (dryRun : Bool) (data : List GRec) (raws : List GLead) :
    List VRec × List GLead × Nat × Nat :=
  if dryRun then ([], raws, data.length, 0)
  else
    let t := saveLoop (data.zip raws)
    (t.1, t.2.1 ++ raws.drop (data.zip raws).length, t.2.2.1, t.2.2.2)

/-- The observable outcome of one `process_batch` run. -/
structure BatchOutcome where
  total : Nat
  successful : Nat
  failed : Nat
  mismatchWarned : Bool
  created : List VRec
  leads : List GLead
deriving DecidableEq

/-- `LeadScorer.process_batch`, abstracted over the fetched leads and
the records parsed from the GPT response: on a count mismatch it only
logs a warning and **still** calls `save_verified_leads`, which applies
the results pairwise. -/
def process_batch (dryRun : Bool) (raws : List GLead) (data : List GRec) :
    BatchOutcome :=
  if raws.isEmpty then
    { total := 0, successful := 0, failed := 0, mismatchWarned := false,
      created := [], leads := raws }
  else
    let t := save_verified_leads dryRun data raws
    { total := raws.length, successful := t.2.2.1, failed := t.2.2.2,
      mismatchWarned := data.length != raws.length,
      created := t.1, leads := t.2.1 }

theorem saveLoop_created_length (pairs : List (GRec × GLead)) :
    (saveLoop pairs).1.length
      = (pairs.filter (fun p => p.1.email.isSome)).length := by
  induction pairs with
  | nil => rfl
  | cons p rest ih =>
    obtain ⟨d, r⟩ := p
    cases hd : d.email with
    | some e => simp [saveLoop, hd, ih]
    | none => simp [saveLoop, hd, ih]

theorem saveLoop_verified_count (pairs : List (GRec × GLead))
    (h : ∀ p ∈ pairs, p.2.verified = false) :
    (saveLoop pairs).2.1.countP (fun l => l.verified)
      = (pairs.filter (fun p => p.1.email.isSome)).length := by
  induction pairs with
  | nil => rfl
  | cons p rest ih =>
    obtain ⟨d, r⟩ := p
    have hr : r.verified = false := h (d, r) (List.mem_cons_self _ _)
    have ih0 := ih (fun q hq => h q (List.mem_cons_of_mem _ hq))
    cases hd : d.email with
    | some e => simp [saveLoop, hd, List.countP_cons, ih0]
    | none => simp [saveLoop, hd, List.countP_cons, ih0, hr]

end GptScoring

/-- Claim C1, counterexample: in `LeadScorer.process_batch`
(`gpt_scoring.py`), a batch of 3 leads answered by only 2 parsed
records is *not* rejected: the mismatch is logged as a warning and the
2 records are still applied — 2 `VerifiedLead` rows are created and 2
of the 3 leads are marked verified. -/
theorem process_batch_mismatch_partial_apply :
    (GptScoring.process_batch false
      [{ name := "n1".toList, email := "a@x.com".toList, website := [],
         source := [], verified := false },
       { name := "n2".toList, email := "b@x.com".toList, website := [],
         source := [], verified := false },
       { name := "n3".toList, email := "c@x.com".toList, website := [],
         source := [], verified := false }]
      [{ name := none, email := some "a@x.com".toList, website := none,
         source := none, fit_score := some 7, intent_score := some 6,
         personalization_note := none },
       { name := none, email := some "b@x.com".toList, website := none,
         source := none, fit_score := some 5, intent_score := some 4,
         personalization_note := none }]).mismatchWarned = true
    ∧ (GptScoring.process_batch false
      [{ name := "n1".toList, email := "a@x.com".toList, website := [],
         source := [], verified := false },
       { name := "n2".toList, email := "b@x.com".toList, website := [],
         source := [], verified := false },
       { name := "n3".toList, email := "c@x.com".toList, website := [],
         source := [], verified := false }]
      [{ name := none, email := some "a@x.com".toList, website := none,
         source := none, fit_score := some 7, intent_score := some 6,
         personalization_note := none },
       { name := none, email := some "b@x.com".toList, website := none,
         source := none, fit_score := some 5, intent_score := some 4,
         personalization_note := none }]).created.length = 2
    ∧ (GptScoring.process_batch false
      [{ name := "n1".toList, email := "a@x.com".toList, website := [],
         source := [], verified := false },
       { name := "n2".toList, email := "b@x.com".toList, website := [],
         source := [], verified := false },
       { name := "n3".toList, email := "c@x.com".toList, website := [],
         source := [], verified := false }]
      [{ name := none, email := some "a@x.com".toList, website := none,
         source := none, fit_score := some 7, intent_score := some 6,
         personalization_note := none },
       { name := none, email := some "b@x.com".toList, website := none,
         source := none, fit_score := some 5, intent_score := some 4,
         personalization_note := none }]).leads.countP (fun l => l.verified) = 2 := by
  decide

/-- Claim C1 (amended): count-mismatch handling differs between the two
LLM scoring paths.  In the `score_leads.main` loop a mismatched (or
empty) result list rejects the whole batch — every lead's `processing`
flag is reset and no score or reason is written, leaving the leads
available for reprocessing.  In `LeadScorer.process_batch`
(`gpt_scoring.py`) a mismatch is only logged: the parsed records are
still applied pairwise, creating one `VerifiedLead` row and marking one
lead verified for every pair of the zip whose record carries an
`email` key. -/
theorem llm_count_mismatch_handling (leads : List ScoreLeads.SLead)
    (results : List ScoreLeads.SRes)
    (raws : List GptScoring.GLead) (data : List GptScoring.GRec)
    (h1 : results.length ≠ leads.length)
    (h2 : data.length ≠ raws.length)
    (h3 : raws ≠ [])
    (h4 : ∀ l ∈ raws, l.verified = false) :
    ScoreLeads.scoreLeadsStep leads results
      = leads.map (fun l => { l with processing := false })
    ∧ (GptScoring.process_batch false raws data).mismatchWarned = true
    ∧ (GptScoring.process_batch false raws data).created.length
        = ((data.zip raws).filter (fun p => p.1.email.isSome)).length
    ∧ (GptScoring.process_batch false raws data).leads.countP (fun l => l.verified)
        = ((data.zip raws).filter (fun p => p.1.email.isSome)).length := by
  have he : raws.isEmpty = false := by
    cases raws with
    | nil => exact absurd rfl h3
    | cons a l => rfl
  have hb2 : (data.length != raws.length) = true := by
    simpa using h2
  refine ⟨?_, ?_, ?_, ?_⟩
  · have hb1 : (results.length != leads.length) = true := by
      simpa using h1
    simp only [ScoreLeads.scoreLeadsStep, hb1, Bool.or_true, if_true,
      List.map_map]
    rfl
  · simp only [GptScoring.process_batch, he, Bool.false_eq_true, if_false, hb2]
  · simp only [GptScoring.process_batch, he, Bool.false_eq_true, if_false,
      GptScoring.save_verified_leads, if_false]
    exact GptScoring.saveLoop_created_length (data.zip raws)
  · simp only [GptScoring.process_batch, he, Bool.false_eq_true, if_false,
      GptScoring.save_verified_leads, if_false, List.countP_append]
    have hz : ∀ p ∈ data.zip raws, (p : GptScoring.GRec × GptScoring.GLead).2.verified = false :=
      fun p hp => h4 p.2 (List.of_mem_zip hp).2
    rw [GptScoring.saveLoop_verified_count (data.zip raws) hz]
    have hdrop : (raws.drop (data.zip raws).length).countP (fun l => l.verified) = 0 :=
      List.countP_eq_zero.2 (fun l hl => by
        rw [h4 l (List.mem_of_mem_drop hl)]
        exact Bool.false_ne_true)
    rw [hdrop]
    omega

/-- Witness for `llm_count_mismatch_handling`: one lead with two
results in the `score_leads` loop (flags reset, nothing scored), and
three leads with two parsed records in `process_batch` (both records
applied). -/
theorem llm_count_mismatch_handling_witness :
    ScoreLeads.scoreLeadsStep
      [{ id := 1, score := false, score_reason := [], processing := false }]
      [{ icp := some true, reason := none }, { icp := some false, reason := none }]
      = [{ id := 1, score := false, score_reason := [], processing := false }]
    ∧ (GptScoring.process_batch false
      [{ name := "m1".toList, email := "d@x.com".toList, website := [],
         source := [], verified := false },
       { name := "m2".toList, email := "e@x.com".toList, website := [],
         source := [], verified := false },
       { name := "m3".toList, email := "f@x.com".toList, website := [],
         source := [], verified := false }]
      [{ name := none, email := some "d@x.com".toList, website := none,
         source := none, fit_score := some 3, intent_score := some 2,
         personalization_note := none },
       { name := none, email := some "e@x.com".toList, website := none,
         source := none, fit_score := some 1, intent_score := some 0,
         personalization_note := none }]).created.length = 2 := by
  have h := llm_count_mismatch_handling
    [{ id := 1, score := false, score_reason := [], processing := false }]
    [{ icp := some true, reason := none }, { icp := some false, reason := none }]
    [{ name := "m1".toList, email := "d@x.com".toList, website := [],
       source := [], verified := false },
     { name := "m2".toList, email := "e@x.com".toList, website := [],
       source := [], verified := false },
     { name := "m3".toList, email := "f@x.com".toList, website := [],
       source := [], verified := false }]
    [{ name := none, email := some "d@x.com".toList, website := none,
       source := none, fit_score := some 3, intent_score := some 2,
       personalization_note := none },
     { name := none, email := some "e@x.com".toList, website := none,
       source := none, fit_score := some 1, intent_score := some 0,
       personalization_note := none }]
    (by decide) (by decide) (by decide) (by decide)
  exact ⟨h.1.trans (by decide), h.2.2.1.trans (by decide)⟩

/-! ### `csv_leads.py` — CSV import -/

namespace CsvLeads

/-- The importer state: `store` is the `email` column of the persisted
`Lead` rows (what `Lead.objects.filter(email=...)` consults), `pending`
the emails of the in-memory `leads_to_create` batch, and the four
counters of the summary report.  Rows are modelled by their `Email`
cell; the other mapped columns never influence control flow. -/
structure CsvState where
  store : List Str
  pending : List Str
  total : Nat
  inserted : Nat
  duplicates : Nat
  errors : Nat
deriving DecidableEq

/-- `(row.get("Email") or "").strip().lower()` — the duplicate-check
key. -/
def normEmail (raw : Str) : Str :=
  Py.lower (Py.strip raw)

def initState (store0 : List Str) : CsvState :=
  { store := store0, pending := [], total := 0, inserted := 0,
    duplicates := 0, errors := 0 }

/-- One iteration of the row loop of `import_csv_leads`: empty email →
error; email found in the *persisted* store → duplicate; otherwise the
row (whose stored email is the stripped, non-lowered cell) joins the
pending batch, which is flushed into the store once it reaches
`batch_size`. -/
def csvStep (batch_size : Nat) (s : CsvState) (raw : Str) : CsvState :=
  let email := normEmail raw
  if email = [] then
    { s with total := s.total + 1, errors := s.errors + 1 }
  else if email ∈ s.store then
    { s with total := s.total + 1, duplicates := s.duplicates + 1 }
  else
    let pending := s.pending ++ [Py.strip raw]
    if batch_size ≤ pending.length then
      { s with total := s.total + 1, store := s.store ++ pending,
               inserted := s.inserted + pending.length, pending := [] }
    else
      { s with total := s.total + 1, pending := pending }

/-- `import_csv_leads(input_file, batch_size)`: fold the row loop over
the CSV rows, then flush the leftover batch. -/
def import_csv_leads (rows : List Str) (store0 : List Str) (batch_size : Nat) :
    CsvState :=
  let s := rows.foldl (csvStep batch_size) (initState store0)
  if s.pending.isEmpty then s
  else { s with store := s.store ++ s.pending,
                inserted := s.inserted + s.pending.length, pending := [] }

theorem count_combined_csvStep_le (bs : Nat) (s : CsvState) (raw e : Str) :
    (s.store ++ s.pending).count e
      ≤ ((csvStep bs s raw).store ++ (csvStep bs s raw).pending).count e := by
  simp only [csvStep]
  split
  · exact Nat.le_refl _
  · split
    · exact Nat.le_refl _
    · split <;> (simp [List.count_append]; try omega)

theorem count_combined_foldl_le (bs : Nat) (rows : List Str) (s : CsvState) (e : Str) :
    (s.store ++ s.pending).count e
      ≤ ((rows.foldl (csvStep bs) s).store ++ (rows.foldl (csvStep bs) s).pending).count e := by
  induction rows generalizing s with
  | nil => exact Nat.le_refl _
  | cons r rest ih =>
    exact Nat.le_trans (count_combined_csvStep_le bs s r e) (ih (csvStep bs s r))

theorem import_store_count (rows store0 : List Str) (bs : Nat) (e : Str) :
    (import_csv_leads rows store0 bs).store.count e
      = ((rows.foldl (csvStep bs) (initState store0)).store
          ++ (rows.foldl (csvStep bs) (initState store0)).pending).count e := by
  simp only [import_csv_leads]
  split
  · rename_i hemp
    rw [List.isEmpty_iff.1 hemp]
    simp
  · rfl

/-- Claim C10: the duplicate check consults only the persisted store,
never the pending in-memory batch.  For any CSV `pre ++ [r1, r2] ++ post`
whose rows `r1` and `r2` carry the same email, not present in the store
when `r1` is processed, and with no batch flush between them, both rows
are inserted (the email's multiplicity in the final store grows by two)
and neither is counted as a duplicate. -/
theorem csv_dup_check_ignores_pending (pre post : List Str) (r1 r2 : Str)
    (store0 : List Str) (bs : Nat) (s : CsvState)
    (hspre : s = pre.foldl (csvStep bs) (initState store0))
    (h12 : Py.strip r1 = Py.strip r2)
    (he : normEmail r1 ≠ [])
    (hs : normEmail r1 ∉ s.store)
    (hp : s.pending.length + 1 < bs) :
    (csvStep bs (csvStep bs s r1) r2).duplicates = s.duplicates
    ∧ ((csvStep bs (csvStep bs s r1) r2).store
        ++ (csvStep bs (csvStep bs s r1) r2).pending).count (Py.strip r1)
        = (s.store ++ s.pending).count (Py.strip r1) + 2
    ∧ (s.store ++ s.pending).count (Py.strip r1) + 2
        ≤ (import_csv_leads (pre ++ [r1, r2] ++ post) store0 bs).store.count (Py.strip r1) := by
  have hne2 : normEmail r2 = normEmail r1 := by
    unfold normEmail
    rw [h12]
  have hs1 : csvStep bs s r1
      = { s with total := s.total + 1, pending := s.pending ++ [Py.strip r1] } := by
    simp only [csvStep]
    rw [if_neg he, if_neg hs, if_neg (by
      simp only [List.length_append, List.length_cons, List.length_nil]
      omega)]
  have hstep2 : (csvStep bs (csvStep bs s r1) r2).duplicates = s.duplicates
      ∧ ((csvStep bs (csvStep bs s r1) r2).store
          ++ (csvStep bs (csvStep bs s r1) r2).pending).count (Py.strip r1)
          = (s.store ++ s.pending).count (Py.strip r1) + 2 := by
    rw [hs1]
    simp only [csvStep, hne2, ← h12]
    rw [if_neg he, if_neg hs]
    split
    · constructor
      · rfl
      · simp [List.count_append, List.count_cons]
        omega
    · constructor
      · rfl
      · simp [List.count_append, List.count_cons]
        omega
  refine ⟨hstep2.1, hstep2.2, ?_⟩
  rw [import_store_count]
  have hfold : (pre ++ [r1, r2] ++ post).foldl (csvStep bs) (initState store0)
      = post.foldl (csvStep bs) (csvStep bs (csvStep bs s r1) r2) := by
    rw [List.foldl_append, List.foldl_append, ← hspre]
    rfl
  rw [hfold, ← hstep2.2]
  exact count_combined_foldl_le bs post _ _

/-- Witness for `csv_dup_check_ignores_pending`: a two-row CSV with the
same email `"Jane@Example.com "` twice, empty store, batch size 500 —
no duplicates counted and the email stored twice. -/
theorem csv_dup_check_ignores_pending_witness :
    (csvStep 500 (csvStep 500 (initState []) "Jane@Example.com ".toList)
        "Jane@Example.com ".toList).duplicates = (initState []).duplicates
    ∧ ((csvStep 500 (csvStep 500 (initState []) "Jane@Example.com ".toList)
        "Jane@Example.com ".toList).store
        ++ (csvStep 500 (csvStep 500 (initState []) "Jane@Example.com ".toList)
            "Jane@Example.com ".toList).pending).count
          (Py.strip "Jane@Example.com ".toList)
        = ((initState []).store ++ (initState []).pending).count
            (Py.strip "Jane@Example.com ".toList) + 2
    ∧ ((initState []).store ++ (initState []).pending).count
          (Py.strip "Jane@Example.com ".toList) + 2
        ≤ (import_csv_leads ([] ++ ["Jane@Example.com ".toList,
            "Jane@Example.com ".toList] ++ []) [] 500).store.count
            (Py.strip "Jane@Example.com ".toList) :=
  csv_dup_check_ignores_pending [] [] "Jane@Example.com ".toList
    "Jane@Example.com ".toList [] 500 (initState [])
    rfl rfl (by decide) (by decide) (by decide)

end CsvLeads

/-! ### `generate_follow_up_copy.py` — follow-up eligibility -/

namespace Followup

/-- `FOLLOWUP_CADENCE = {1: 32, 2: 72, 3: 120}` as an association
list (hours). -/
def FOLLOWUP_CADENCE : List (Nat × Int) := [(1, 32), (2, 72), (3, 120)]

/-- A `LeadEmailCopy` row joined with its lead, as queried for
follow-up #1.  `sent_at` is in hours (`none` models SQL NULL, excluded
by `sent_at__lte`); `followup_numbers` are the `followup_number`s of
the related `FollowUp` rows (the `exclude` clause). -/
structure CopyRec where
  id : Nat
  lead_id : Nat
  sent : Bool
  sent_at : Option Int
  lead_email_verified : Bool
  followup_numbers : List Nat
deriving DecidableEq

/-- A `FollowUp` row joined with its lead, as queried for follow-ups
#2 and #3. -/
structure FollowUpRec where
  followup_number : Nat
  status : Str
  sent_at : Option Int
  lead_email_verified : Bool
  lead_followup_numbers : List Nat
  lead_id : Nat
  parent_email_id : Nat
deriving DecidableEq

/-- SQL `field <= cutoff` on a nullable column: NULL never matches. -/
def optLe (x : Option Int) (cutoff : Int) : Bool :=
  match x with
  | none => false
  | some t => decide (t ≤ cutoff)

/-- `get_leads_due_for_followup(followup_number, batch_size)` at time
`now`: for #1, sent copies with `sent_at ≤ now − cadence[1]`, verified
lead and no existing follow-up #1, truncated to `batch_size`; for #2/#3
the analogous query over sent `FollowUp` rows.  Returns
`(lead_id, parent copy id)` pairs together with the matched source
row. -/
def get_leads_due_for_followup (n : Nat) (now : Int)
    (copies : List CopyRec) (fus : List FollowUpRec) (batch_size : Nat) :
    List (Nat × CopyRec) × List (Nat × FollowUpRec) :=
  let cutoff := now - (FOLLOWUP_CADENCE.lookup n).getD 0
  if n = 1 then
    (((copies.filter (fun le =>
        le.sent && optLe le.sent_at cutoff && le.lead_email_verified
          && !(le.followup_numbers.contains 1))).take batch_size).map
      (fun le => (le.lead_id, le)), [])
  else
    ([],
     ((fus.filter (fun fu =>
        fu.followup_number == n - 1 && fu.status == "sent".toList
          && optLe fu.sent_at cutoff && fu.lead_email_verified
          && !(fu.lead_followup_numbers.contains n))).take batch_size).map
      (fun fu => (fu.lead_id, fu)))

/-- Claim C7: every lead-email pair selected as due for follow-up #1
satisfies `now − sent_at ≥ 32` hours — a first touch sent at `T` is
never selected before `T + 32h`. -/
theorem followup1_cadence (now : Int) (copies : List CopyRec)
    (fus : List FollowUpRec) (batch_size : Nat) (lid : Nat) (le : CopyRec)
    (h : (lid, le) ∈ (get_leads_due_for_followup 1 now copies fus batch_size).1) :
    ∃ t, le.sent_at = some t ∧ t + 32 ≤ now := by
  simp only [get_leads_due_for_followup, if_pos rfl] at h
  rcases List.mem_map.1 h with ⟨le0, hmem, heq⟩
  cases heq
  have hfilter := List.mem_filter.1 ((List.take_sublist _ _).mem hmem)
  have hpred := hfilter.2
  simp only [Bool.and_eq_true] at hpred
  obtain ⟨⟨⟨_, hle⟩, _⟩, _⟩ := hpred
  cases hs : le.sent_at with
  | none => rw [hs] at hle; cases hle
  | some t =>
    rw [hs] at hle
    refine ⟨t, rfl, ?_⟩
    have : t ≤ now - (FOLLOWUP_CADENCE.lookup 1).getD 0 := by
      simpa [optLe] using hle
    have h32 : (FOLLOWUP_CADENCE.lookup 1).getD 0 = 32 := rfl
    omega

/-- Witness for `followup1_cadence`: at `now = 100h` a copy sent at
`60h` (40 hours ago) is selected, and indeed `60 + 32 ≤ 100`. -/
theorem followup1_cadence_witness :
    ∃ t, ({ id := 9, lead_id := 5, sent := true, sent_at := some 60,
            lead_email_verified := true, followup_numbers := [] } : CopyRec).sent_at
            = some t
      ∧ t + 32 ≤ 100 :=
  followup1_cadence 100
    [{ id := 9, lead_id := 5, sent := true, sent_at := some 60,
       lead_email_verified := true, followup_numbers := [] }]
    [] 50 5
    { id := 9, lead_id := 5, sent := true, sent_at := some 60,
      lead_email_verified := true, followup_numbers := [] }
    (by decide)
